import Mathlib

/-!
Shallow embedding of the bloomd Python client (`pybloom.py`).

The connection layer (`BloomdConnection`) is modelled as a deterministic
state machine over a *script*: the chronological list of outcomes that the
underlying socket produces for each primitive operation (`sendall`,
`readline`, `connect`).  Each primitive consumes the head of the script and
is recorded in a log, so theorems can count underlying attempts and observe
exactly which network operations a call performed.

The client layer (`BloomdClient`) is modelled with explicit state passing:
the configured server list, the cache of per-server connections (keyed by
the server string, as in the source), the routing snapshot `server_info`
and its timestamp.  Network effects are recorded in a log of client events;
the replies of the servers are supplied as parameters (`replies` for the
`list` blocks, `reply`/`resp` for single-line replies), mirroring the fact
that the source reads them from the sockets.
-/

namespace PyBloom

/-- Linux errno value for ECONNRESET. -/
def ECONNRESET : Nat := 104

/-- Linux errno value for ECONNREFUSED. -/
def ECONNREFUSED : Nat := 111

/-- Linux errno value for EAGAIN. -/
def EAGAIN : Nat := 11

/-- Linux errno value for EHOSTUNREACH. -/
def EHOSTUNREACH : Nat := 113

/-- Linux errno value for EPIPE. -/
def EPIPE : Nat := 32

/-- The errno values treated as transient in `send`/`send_and_receive`
(`e[0] in (errno.ECONNRESET, errno.ECONNREFUSED, errno.EAGAIN,
errno.EHOSTUNREACH, errno.EPIPE)`). -/
def transientErrno (e : Nat) : Bool :=
  (e == ECONNRESET) || (e == ECONNREFUSED) || (e == EAGAIN) ||
    (e == EHOSTUNREACH) || (e == EPIPE)

/-- A primitive socket operation performed by the connection. -/
inductive NetOp where
  | sendall (data : String)
  | readline
  | connect
deriving DecidableEq

/-- The scripted outcome of one primitive socket operation: success
(carrying the line read, for `readline`), a `socket.error` with an errno,
or an exception that is not a `socket.error`. -/
inductive Outcome where
  | ok (line : String)
  | sockErr (eno : Nat)
  | otherErr
deriving DecidableEq

/-- An exception escaping a connection method:
a `socket.error(eno)`, a non-socket exception, the
`EnvironmentError("Cannot contact bloomd server!")` raised after the retry
budget is exhausted (the TransportExhaustedError of the design), or the
modelling artifact of running off the end of the script. -/
inductive PErr where
  | sockErr (eno : Nat)
  | nonSockErr
  | envErr
  | scriptEnd
deriving DecidableEq

/-- State of a `BloomdConnection`: the remaining socket script and the log
of primitive operations performed so far. -/
structure ConnSt where
  script : List Outcome
  log : List NetOp
deriving DecidableEq

/-- Perform one primitive socket operation: consume the head of the script
and record the operation. -/
def prim (st : ConnSt) (op : NetOp) : Except PErr String × ConnSt :=
  match st.script with
  | [] => (Except.error PErr.scriptEnd, st)
  | o :: rest =>
    let st1 : ConnSt := ⟨rest, st.log ++ [op]⟩
    match o with
    | Outcome.ok s => (Except.ok s, st1)
    | Outcome.sockErr e => (Except.error (PErr.sockErr e), st1)
    | Outcome.otherErr => (Except.error PErr.nonSockErr, st1)

/-- Model of `BloomdConnection._create_socket`: one `connect` on a fresh
socket; any exception it raises propagates. -/
def create_socket (st : ConnSt) : Except PErr Unit × ConnSt :=
  let (r, st1) := prim st NetOp.connect
  (r.map (fun _ => ()), st1)

/-- Model of `str.rstrip("\r\n")`: drop trailing CR/LF characters. -/
def rstripCRLF (s : String) : String :=
  String.mk ((s.data.reverse.dropWhile (fun c => c = '\r' || c = '\n')).reverse)

/-- Model of `BloomdConnection.read`: one `readline`, stripping the line
terminators from a successful read. -/
def connRead (st : ConnSt) : Except PErr String × ConnSt :=
  let (r, st1) := prim st NetOp.readline
  (r.map rstripCRLF, st1)

/-- The retry loop of `BloomdConnection.send`, with the remaining loop
iterations as fuel.  Each iteration tries `sendall`; a `socket.error` with
a transient errno triggers `_create_socket` (whose own failure propagates)
and another iteration; any other exception propagates; running out of
iterations without a successful send raises the exhaustion error. -/
def sendLoop (cmd : String) : ConnSt → Nat → Except PErr Unit × ConnSt
  | st, 0 => (Except.error PErr.envErr, st)
  | st, n + 1 =>
    let (r, st1) := prim st (NetOp.sendall (cmd ++ "\n"))
    match r with
    | Except.ok _ => (Except.ok (), st1)
    | Except.error (PErr.sockErr e) =>
      if transientErrno e then
        let (rc, st2) := create_socket st1
        match rc with
        | Except.ok _ => sendLoop cmd st2 n
        | Except.error pe => (Except.error pe, st2)
      else (Except.error (PErr.sockErr e), st1)
    | Except.error pe => (Except.error pe, st1)

/-- Model of `BloomdConnection.send` (with `attempts` explicit; the source
default is 3). -/
def send (st : ConnSt) (cmd : String) (attempts : Nat) :
    Except PErr Unit × ConnSt :=
  sendLoop cmd st attempts

/-- The default retry-attempt count of `BloomdConnection.__init__`. -/
def defaultAttempts : Nat := 3

/-- The retry loop of `BloomdConnection.send_and_receive`: each iteration
runs the full inner `send` (with its own retry budget `attempts`) followed
by one `read`; a `socket.error` escaping either with a transient errno
triggers `_create_socket` and another iteration of the whole round trip;
any other exception propagates; exhaustion raises the exhaustion error. -/
def sarLoop (cmd : String) (attempts : Nat) : ConnSt → Nat → Except PErr String × ConnSt
  | st, 0 => (Except.error PErr.envErr, st)
  | st, n + 1 =>
    let (r, st1) := sendLoop cmd st attempts
    match r with
    | Except.ok _ =>
      let (rr, st2) := connRead st1
      match rr with
      | Except.ok line => (Except.ok line, st2)
      | Except.error (PErr.sockErr e) =>
        if transientErrno e then
          let (rc, st3) := create_socket st2
          match rc with
          | Except.ok _ => sarLoop cmd attempts st3 n
          | Except.error pe => (Except.error pe, st3)
        else (Except.error (PErr.sockErr e), st2)
      | Except.error pe => (Except.error pe, st2)
    | Except.error (PErr.sockErr e) =>
      if transientErrno e then
        let (rc, st2) := create_socket st1
        match rc with
        | Except.ok _ => sarLoop cmd attempts st2 n
        | Except.error pe => (Except.error pe, st2)
      else (Except.error (PErr.sockErr e), st1)
    | Except.error pe => (Except.error pe, st1)

/-- Model of `BloomdConnection.send_and_receive`. -/
def send_and_receive (st : ConnSt) (cmd : String) (attempts : Nat) :
    Except PErr String × ConnSt :=
  sarLoop cmd attempts st attempts

/-- Number of underlying `sendall` attempts recorded in a log. -/
def sendallCount (log : List NetOp) : Nat :=
  log.countP (fun op => match op with | NetOp.sendall _ => true | _ => false)

/-- A script fragment of `k` failed send attempts with errno `e`, each
followed by a successful reconnect. -/
def failSeq (e : Nat) (k : Nat) : List Outcome :=
  (List.replicate k [Outcome.sockErr e, Outcome.ok ""]).flatten

/-! ## Client layer -/

/-- Split a character list at the first colon, if any
(`server.split(":",1)`). -/
def splitOnceColon : List Char → Option (List Char × List Char)
  | [] => none
  | c :: rest =>
    if c = ':' then some ([], rest)
    else (splitOnceColon rest).map (fun p => (c :: p.1, p.2))

/-- Parse a decimal numeral (Python `int` on the port part; `none` when the
text is not a numeral, modelling the `ValueError`). -/
def natOfChars : List Char → Nat → Option Nat
  | [], acc => some acc
  | c :: rest, acc =>
    if 48 ≤ c.toNat ∧ c.toNat ≤ 57 then
      natOfChars rest (acc * 10 + (c.toNat - 48))
    else none

/-- Model of the server-string parsing in `BloomdConnection.__init__`:
`server.split(":",1)`, with default port 8673; `none` when the port part is
not a numeral (Python raises from `int`). -/
def parseServer (s : String) : Option (String × Nat) :=
  match splitOnceColon s.data with
  | none => some (s, 8673)
  | some (_, []) => none
  | some (h, p) => (natOfChars p 0).map (fun n => (String.mk h, n))

/-- A command sent to a server, structurally.  `create` carries exactly the
optional fields that the source appends to the command line (`if capacity:`
/ `if prob:`). -/
inductive Cmd where
  | listCmd
  | flushCmd
  | create (name : String) (capacity : Option Nat) (prob : Option Rat)
deriving DecidableEq

/-- A client-level network event: creating a connection to a server
(socket connect), sending a command, reading one reply line, reading one
reply block. -/
inductive CEvent where
  | connectTo (s : String)
  | cmdTo (s : String) (c : Cmd)
  | readLineFrom (s : String)
  | readBlockFrom (s : String)
deriving DecidableEq

/-- An exception escaping a client method: the strict-resolution
`BloomdError("Filter does not exist!")`, the `ValueError` of
`create_filter` (probability without capacity), a `BloomdError("Got
response: %s")`, the flush fan-out `BloomdError` naming the offending
server, or a modelling artifact for Python crashes unreachable under the
constructor invariant (non-empty server list). -/
inductive CErr where
  | filterNotFound
  | valueErr
  | gotResponse (resp : String)
  | gotResponseFrom (resp : String) (server : String)
  | pyCrash
deriving DecidableEq

/-- State of a `BloomdClient`: the configured server strings, the cached
connections (`server_conns`, keyed by server string, in creation order),
the routing snapshot `server_info` (a dict from filter name to
`(server, info)`), and its timestamp `info_time`. -/
structure ClientSt where
  servers : List String
  conns : List String
  server_info : Option (List (String × String × String))
  info_time : Nat
deriving DecidableEq

/-- Python-dict lookup on an association list (one entry per key). -/
def dlookup {α : Type} : List (String × α) → String → Option α
  | [], _ => none
  | (k, v) :: rest, key => if k = key then some v else dlookup rest key

/-- Python-dict update on an association list: replace the entry for the
key if present, else append it. -/
def dinsert {α : Type} : List (String × α) → String → α → List (String × α)
  | [], k, v => [(k, v)]
  | (k0, v0) :: rest, k, v =>
    if k0 = k then (k0, v) :: rest else (k0, v0) :: dinsert rest k v

/-- Truthiness of `self.server_info` in Python: `None` and the empty dict
are falsy. -/
def infoFalsy {α : Type} : Option (List α) → Bool
  | none => true
  | some [] => true
  | some (_ :: _) => false

/-- Truthiness of an optional integer argument: `None` and `0` are falsy. -/
def truthyNat : Option Nat → Bool
  | none => false
  | some n => !(n == 0)

/-- Truthiness of an optional float argument (modelled as a rational):
`None` and `0.0` are falsy. -/
def truthyRat : Option Rat → Bool
  | none => false
  | some q => decide (q ≠ 0)

/-- Truthiness of an optional string argument: `None` and `""` are falsy. -/
def truthyStr : Option String → Bool
  | none => false
  | some s => !(s == "")

/-- Model of `BloomdClient._server_connection`: return the cached
connection for the server string if present, else create (connect) and
cache a new one. -/
def server_connection (st : ClientSt) (server : String) :
    ClientSt × List CEvent :=
  if server ∈ st.conns then (st, [])
  else ({ st with conns := st.conns ++ [server] }, [CEvent.connectTo server])

/-- The first loop of `list_filters`/`flush`: for each server, get its
(possibly new) connection and send the command. -/
def sendCmdLoop (c : Cmd) : ClientSt → List String → ClientSt × List CEvent
  | st, [] => (st, [])
  | st, server :: rest =>
    let (st1, l1) := server_connection st server
    let (st2, l2) := sendCmdLoop c st1 rest
    (st2, l1 ++ [CEvent.cmdTo server c] ++ l2)

/-- Send a command to every configured server (the fan-out first loop of
`list_filters` and `flush`). -/
def sendCmdToAll (st : ClientSt) (c : Cmd) : ClientSt × List CEvent :=
  sendCmdLoop c st st.servers

/-- The second loop of `list_filters(inc_server=True)`: for each server,
read its response block (a list of `name info` lines, supplied by
`replies`) and merge it into the responses dict as
`responses[name] = (server, info)`. -/
def readListLoop (replies : String → List (String × String)) :
    ClientSt → List String → List (String × String × String) →
      List (String × String × String) × ClientSt × List CEvent
  | st, [], acc => (acc, st, [])
  | st, server :: rest, acc =>
    let (st1, l1) := server_connection st server
    let acc1 := (replies server).foldl (fun d p => dinsert d p.1 (server, p.2)) acc
    let (res, st2, l2) := readListLoop replies st1 rest acc1
    (res, st2, l1 ++ [CEvent.readBlockFrom server] ++ l2)

/-- Model of `BloomdClient.list_filters(inc_server=True)`: fan out `list`
to every server, then read and merge every server's block. -/
def list_filters (st : ClientSt) (replies : String → List (String × String)) :
    List (String × String × String) × ClientSt × List CEvent :=
  let (st1, l1) := sendCmdToAll st Cmd.listCmd
  let (res, st2, l2) := readListLoop replies st1 st.servers []
  (res, st2, l1 ++ l2)

/-- Lookup of a filter name in the optional routing snapshot
(`filter in self.server_info` followed by `self.server_info[filter]`). -/
def lookupInfo (oinfo : Option (List (String × String × String)))
    (name : String) : Option (String × String) :=
  match oinfo with
  | none => none
  | some d => dlookup d name

/-- Lexicographic comparison of characters by code point (Python byte
string comparison on the command strings used here). -/
def listLeB : List Char → List Char → Bool
  | [], _ => true
  | _ :: _, [] => false
  | a :: as, b :: bs =>
    if a.toNat < b.toNat then true
    else if a.toNat = b.toNat then listLeB as bs
    else false

/-- Python `<=` on the server strings. -/
def strLeB (a b : String) : Bool := listLeB a.data b.data

/-- Python tuple comparison on the `(count, server)` pairs that
`counts.sort()` orders. -/
def pairLeProp (a b : Nat × String) : Prop :=
  (decide (a.1 < b.1) || ((a.1 == b.1) && strLeB a.2 b.2)) = true

instance : DecidableRel pairLeProp :=
  fun _ _ => inferInstanceAs (Decidable (_ = true))

/-- Number of snapshot entries owned by a server (the value
`counts[server]` ends with). -/
def ownedCount (info : List (String × String × String)) (s : String) : Nat :=
  (info.filter (fun e => decide (e.2.1 = s))).length

/-- Model of the least-used-server selection at the end of
`_get_connection`: build the `(count, server)` pairs over the distinct
configured servers, sort, and take the first.  `none` models the Python
`KeyError`/`IndexError` crashes (a snapshot owner outside the configured
servers, or an empty server list), unreachable in the scenarios of the
claims. -/
def pickLeast (servers : List String)
    (info : List (String × String × String)) : Option String :=
  let keys := servers.dedup
  if info.all (fun e => decide (e.2.1 ∈ keys)) then
    let counts := keys.map (fun s => (ownedCount info s, s))
    ((counts.insertionSort pairLeProp).head?).map (fun p => p.2)
  else none

/-- The staleness condition of `_get_connection`:
`not self.server_info or time.time() - self.info_time > 300`. -/
def cacheStale (st : ClientSt) (now : Nat) : Bool :=
  infoFalsy st.server_info || decide (300 < now - st.info_time)

/-- Model of `BloomdClient._get_connection`.  `now` is the value of
`time.time()` during the call; the result is the server string whose
connection is returned, together with the updated state and the log of
network events. -/
def get_connection (st : ClientSt) (replies : String → List (String × String))
    (now : Nat) (filter : String) (strict : Bool)
    (explicit_server : Option String) :
    Except CErr String × ClientSt × List CEvent :=
  if st.servers.length = 1 then
    match st.servers with
    | serv :: _ =>
      let (st1, l1) := server_connection st serv
      (Except.ok serv, st1, l1)
    | [] => (Except.error CErr.pyCrash, st, [])
  else
    -- Force checking if we have no info or 5 minutes has elapsed
    let (st1, l1) :=
      if cacheStale st now then
        let (info1, st', l') := list_filters st replies
        ({ st' with server_info := some info1, info_time := now }, l')
      else (st, [])
    -- Check if this filter is in a known location
    match lookupInfo st1.server_info filter with
    | some (serv, _) =>
      let (st2, l2) := server_connection st1 serv
      (Except.ok serv, st2, l1 ++ l2)
    | none =>
      -- Possibly old data? Reload
      let (info2, st2, l2) := list_filters st1 replies
      let st3 : ClientSt := { st2 with server_info := some info2, info_time := now }
      -- Recheck
      match dlookup info2 filter with
      | some (serv, _) =>
        let (st4, l4) := server_connection st3 serv
        (Except.ok serv, st4, l1 ++ l2 ++ l4)
      | none =>
        -- Check if this is fatal
        if strict then (Except.error CErr.filterNotFound, st3, l1 ++ l2)
        else if truthyStr explicit_server then
          match explicit_server with
          | some es =>
            let (st4, l4) := server_connection st3 es
            (Except.ok es, st4, l1 ++ l2 ++ l4)
          | none => (Except.error CErr.pyCrash, st3, l1 ++ l2)
        else
          match pickLeast st3.servers info2 with
          | some serv =>
            let (st4, l4) := server_connection st3 serv
            (Except.ok serv, st4, l1 ++ l2 ++ l4)
          | none => (Except.error CErr.pyCrash, st3, l1 ++ l2)

/-- Model of `BloomdClient.create_filter`.  `resp` is the single reply
line the placement server sends back to the `create` command.  On success
the result is the filter handle, as the pair of the bound server and the
filter name. -/
def create_filter (st : ClientSt) (replies : String → List (String × String))
    (now : Nat) (name : String) (capacity : Option Nat) (prob : Option Rat)
    (server : Option String) (resp : String) :
    Except CErr (String × String) × ClientSt × List CEvent :=
  if truthyRat prob && !truthyNat capacity then
    (Except.error CErr.valueErr, st, [])
  else
    match get_connection st replies now name false server with
    | (Except.ok serv, st1, l1) =>
      let c := Cmd.create name (if truthyNat capacity then capacity else none)
        (if truthyRat prob then prob else none)
      let l2 := [CEvent.cmdTo serv c, CEvent.readLineFrom serv]
      if resp = "Done" then (Except.ok (serv, name), st1, l1 ++ l2)
      else (Except.error (CErr.gotResponse resp), st1, l1 ++ l2)
    | (Except.error e, st1, l1) => (Except.error e, st1, l1)

/-- Model of `BloomdClient.__getitem__`: strict resolution, returning a
handle bound to the owning server. -/
def getItem (st : ClientSt) (replies : String → List (String × String))
    (now : Nat) (name : String) :
    Except CErr (String × String) × ClientSt × List CEvent :=
  match get_connection st replies now name true none with
  | (Except.ok serv, st1, l1) => (Except.ok (serv, name), st1, l1)
  | (Except.error e, st1, l1) => (Except.error e, st1, l1)

/-- The second loop of `BloomdClient.flush`: read each server's reply in
order; the first reply that is not `Done` raises the `BloomdError` naming
that server, and no further replies are read. -/
def readFlushLoop (reply : String → String) :
    ClientSt → List String → Except CErr Unit × ClientSt × List CEvent
  | st, [] => (Except.ok (), st, [])
  | st, server :: rest =>
    let (st1, l1) := server_connection st server
    let l := l1 ++ [CEvent.readLineFrom server]
    if reply server = "Done" then
      let (r, st2, l2) := readFlushLoop reply st1 rest
      (r, st2, l ++ l2)
    else (Except.error (CErr.gotResponseFrom (reply server) server), st1, l)

/-- Model of `BloomdClient.flush`: fan out `flush` to every server first,
then check every server's reply. -/
def flush (st : ClientSt) (reply : String → String) :
    Except CErr Unit × ClientSt × List CEvent :=
  let (st1, l1) := sendCmdToAll st Cmd.flushCmd
  let (r, st2, l2) := readFlushLoop reply st1 st.servers
  (r, st2, l1 ++ l2)

/-- Number of `list` commands sent in a client event log (one full-fleet
fan-out sends exactly `servers.length` of them). -/
def listSends (log : List CEvent) : Nat :=
  log.countP (fun e => match e with
    | CEvent.cmdTo _ Cmd.listCmd => true
    | _ => false)

/-- Number of connections cached for a given parsed server address. -/
def addrConnCount (st : ClientSt) (addr : String × Nat) : Nat :=
  (st.conns.filter (fun s => decide (parseServer s = some addr))).length

/-! ## Step lemmas for the connection retry loops -/

lemma sendLoop_ok (cmd s : String) (sc : List Outcome) (log : List NetOp)
    (n : Nat) :
    sendLoop cmd ⟨Outcome.ok s :: sc, log⟩ (n + 1)
      = (Except.ok (), ⟨sc, log ++ [NetOp.sendall (cmd ++ "\n")]⟩) := by
  simp [sendLoop, prim]

lemma sendLoop_fail_reconnect_ok (cmd s : String) (e : Nat)
    (sc : List Outcome) (log : List NetOp) (n : Nat)
    (hT : transientErrno e = true) :
    sendLoop cmd ⟨Outcome.sockErr e :: Outcome.ok s :: sc, log⟩ (n + 1)
      = sendLoop cmd
          ⟨sc, log ++ [NetOp.sendall (cmd ++ "\n"), NetOp.connect]⟩ n := by
  simp [sendLoop, prim, create_socket, hT, Except.map]

lemma sendLoop_fail_reconnect_fail (cmd : String) (e e2 : Nat)
    (sc : List Outcome) (log : List NetOp) (n : Nat)
    (hT : transientErrno e = true) :
    sendLoop cmd ⟨Outcome.sockErr e :: Outcome.sockErr e2 :: sc, log⟩ (n + 1)
      = (Except.error (PErr.sockErr e2),
          ⟨sc, log ++ [NetOp.sendall (cmd ++ "\n"), NetOp.connect]⟩) := by
  simp [sendLoop, prim, create_socket, hT, Except.map]

lemma sendLoop_fail_nontransient (cmd : String) (e : Nat)
    (sc : List Outcome) (log : List NetOp) (n : Nat)
    (hN : transientErrno e = false) :
    sendLoop cmd ⟨Outcome.sockErr e :: sc, log⟩ (n + 1)
      = (Except.error (PErr.sockErr e),
          ⟨sc, log ++ [NetOp.sendall (cmd ++ "\n")]⟩) := by
  simp [sendLoop, prim, hN]

lemma sendLoop_otherErr (cmd : String) (sc : List Outcome) (log : List NetOp)
    (n : Nat) :
    sendLoop cmd ⟨Outcome.otherErr :: sc, log⟩ (n + 1)
      = (Except.error PErr.nonSockErr,
          ⟨sc, log ++ [NetOp.sendall (cmd ++ "\n")]⟩) := by
  simp [sendLoop, prim]

lemma failSeq_zero (e : Nat) : failSeq e 0 = [] := rfl

lemma failSeq_succ (e k : Nat) :
    failSeq e (k + 1) = Outcome.sockErr e :: Outcome.ok "" :: failSeq e k := by
  simp [failSeq, List.replicate_succ]

/-- The retry pattern of `send`: `k` transient failures, each healed by a
successful reconnect, followed by a successful `sendall`, succeed within a
budget of `n + 1` attempts when `k ≤ n`, with exactly `k + 1` underlying
`sendall` attempts. -/
lemma sendLoop_failSeq_ok (cmd : String) (e : Nat)
    (hT : transientErrno e = true) :
    ∀ (k n : Nat) (log : List NetOp) (rest : List Outcome), k ≤ n →
      sendLoop cmd ⟨failSeq e k ++ Outcome.ok "" :: rest, log⟩ (n + 1)
        = (Except.ok (),
            ⟨rest, log ++
              (List.replicate k
                [NetOp.sendall (cmd ++ "\n"), NetOp.connect]).flatten ++
              [NetOp.sendall (cmd ++ "\n")]⟩) := by
  intro k
  induction k with
  | zero =>
    intro n log rest _
    simp [failSeq_zero, sendLoop_ok]
  | succ k ih =>
    intro n log rest hk
    match n, hk with
    | Nat.succ m, hk =>
      rw [failSeq_succ]
      rw [show (Outcome.sockErr e :: Outcome.ok "" :: failSeq e k ++
            Outcome.ok "" :: rest)
          = Outcome.sockErr e :: Outcome.ok "" ::
              (failSeq e k ++ Outcome.ok "" :: rest) by simp]
      rw [sendLoop_fail_reconnect_ok cmd _ e _ _ _ hT]
      rw [ih m _ rest (Nat.le_of_succ_le_succ hk)]
      simp [List.replicate_succ]

/-- The exhaustion pattern of `send`: `n` consecutive transient failures
(each healed by a successful reconnect) exhaust a budget of `n` attempts
and raise the exhaustion error, with exactly `n` underlying `sendall`
attempts. -/
lemma sendLoop_failSeq_exhaust (cmd : String) (e : Nat)
    (hT : transientErrno e = true) :
    ∀ (n : Nat) (log : List NetOp) (rest : List Outcome),
      sendLoop cmd ⟨failSeq e n ++ rest, log⟩ n
        = (Except.error PErr.envErr,
            ⟨rest, log ++
              (List.replicate n
                [NetOp.sendall (cmd ++ "\n"), NetOp.connect]).flatten⟩) := by
  intro n
  induction n with
  | zero => intro log rest; simp [failSeq_zero, sendLoop]
  | succ n ih =>
    intro log rest
    rw [failSeq_succ]
    rw [show (Outcome.sockErr e :: Outcome.ok "" :: failSeq e n ++ rest)
        = Outcome.sockErr e :: Outcome.ok "" :: (failSeq e n ++ rest) by simp]
    rw [sendLoop_fail_reconnect_ok cmd _ e _ _ _ hT]
    rw [ih]
    simp [List.replicate_succ]

lemma sendallCount_append (l1 l2 : List NetOp) :
    sendallCount (l1 ++ l2) = sendallCount l1 + sendallCount l2 := by
  simp [sendallCount, List.countP_append]

lemma sendallCount_flat (d : String) (k : Nat) :
    sendallCount ((List.replicate k [NetOp.sendall d, NetOp.connect]).flatten)
      = k := by
  induction k with
  | zero => rfl
  | succ k ih =>
    simp only [List.replicate_succ, List.flatten_cons, sendallCount_append, ih]
    rw [show sendallCount [NetOp.sendall d, NetOp.connect] = 1 from rfl]
    omega

lemma sarLoop_send_transient_reconnect_ok (cmd : String) (attempts e : Nat)
    (st : ConnSt) (s : String) (sc : List Outcome) (log : List NetOp)
    (n : Nat) (hT : transientErrno e = true)
    (hSend : sendLoop cmd st attempts
      = (Except.error (PErr.sockErr e), ⟨Outcome.ok s :: sc, log⟩)) :
    sarLoop cmd attempts st (n + 1)
      = sarLoop cmd attempts ⟨sc, log ++ [NetOp.connect]⟩ n := by
  simp [sarLoop, hSend, create_socket, prim, hT, Except.map]

lemma sarLoop_ok_ok (cmd s line : String) (sc : List Outcome)
    (log : List NetOp) (a n : Nat) :
    sarLoop cmd (a + 1) ⟨Outcome.ok s :: Outcome.ok line :: sc, log⟩ (n + 1)
      = (Except.ok (rstripCRLF line),
          ⟨sc, log ++ [NetOp.sendall (cmd ++ "\n"), NetOp.readline]⟩) := by
  simp [sarLoop, sendLoop_ok, connRead, prim, Except.map]

/-! ## Claim theorems: transport layer -/

/-- C1: `send_and_receive` applies the retry policy around the combined
send-plus-read round trip.  With the default budget of 3 attempts: a socket
whose `sendall` raises a connection-reset error on the first two attempts
and succeeds on the third completes the call successfully (reply `Done`)
with exactly 3 underlying `sendall` attempts; a socket that keeps raising
the reset error (four consecutive failures scripted) raises the exhaustion
`EnvironmentError` (TransportExhaustedError); and a failure during the read
of a given attempt triggers reconnect-and-retry of the whole round trip, so
three round trips each failing in the read exhaust the budget and raise the
exhaustion error. -/
theorem sar_retry_scenarios (cmd : String) :
    send_and_receive ⟨[Outcome.sockErr ECONNRESET, Outcome.ok "",
        Outcome.sockErr ECONNRESET, Outcome.ok "", Outcome.ok "",
        Outcome.ok "Done\n"], []⟩ cmd defaultAttempts
      = (Except.ok "Done",
          ⟨[], [NetOp.sendall (cmd ++ "\n"), NetOp.connect,
            NetOp.sendall (cmd ++ "\n"), NetOp.connect,
            NetOp.sendall (cmd ++ "\n"), NetOp.readline]⟩) ∧
    sendallCount [NetOp.sendall (cmd ++ "\n"), NetOp.connect,
        NetOp.sendall (cmd ++ "\n"), NetOp.connect,
        NetOp.sendall (cmd ++ "\n"), NetOp.readline] = 3 ∧
    (send_and_receive ⟨failSeq ECONNRESET 4, []⟩ cmd defaultAttempts).1
      = Except.error PErr.envErr ∧
    sendallCount
        (send_and_receive ⟨failSeq ECONNRESET 4, []⟩ cmd
          defaultAttempts).2.log = 3 ∧
    (send_and_receive ⟨[Outcome.ok "", Outcome.sockErr ECONNRESET,
        Outcome.ok "", Outcome.ok "", Outcome.sockErr ECONNRESET,
        Outcome.ok "", Outcome.ok "", Outcome.sockErr ECONNRESET,
        Outcome.ok ""], []⟩ cmd defaultAttempts).1
      = Except.error PErr.envErr ∧
    defaultAttempts = 3 :=
  ⟨rfl, rfl, rfl, rfl, rfl, rfl⟩

/-- C2: `send` retries the same send after a transient socket error, up to
`attempts = n + 1` total tries (source default 3): `k ≤ n` transient
failures healed by reconnects are followed by success with exactly `k + 1`
underlying `sendall` attempts; a socket error with a non-transient errno
propagates immediately after a single attempt, as does an exception that is
not a `socket.error`; and `n + 1` consecutive transient failures exhaust
the budget and raise the exhaustion `EnvironmentError`
(TransportExhaustedError) after exactly `n + 1` `sendall` attempts. -/
theorem send_retry_contract (e en : Nat) (cmd : String) (k n : Nat)
    (rest : List Outcome)
    (hT : transientErrno e = true) (hN : transientErrno en = false)
    (hk : k ≤ n) :
    send ⟨failSeq e k ++ Outcome.ok "" :: rest, []⟩ cmd (n + 1)
      = (Except.ok (),
          ⟨rest, (List.replicate k
              [NetOp.sendall (cmd ++ "\n"), NetOp.connect]).flatten ++
            [NetOp.sendall (cmd ++ "\n")]⟩) ∧
    sendallCount
        ((send ⟨failSeq e k ++ Outcome.ok "" :: rest, []⟩ cmd
          (n + 1)).2.log) = k + 1 ∧
    send ⟨Outcome.sockErr en :: rest, []⟩ cmd (n + 1)
      = (Except.error (PErr.sockErr en),
          ⟨rest, [NetOp.sendall (cmd ++ "\n")]⟩) ∧
    send ⟨Outcome.otherErr :: rest, []⟩ cmd (n + 1)
      = (Except.error PErr.nonSockErr,
          ⟨rest, [NetOp.sendall (cmd ++ "\n")]⟩) ∧
    (send ⟨failSeq e (n + 1) ++ rest, []⟩ cmd (n + 1)).1
      = Except.error PErr.envErr ∧
    sendallCount ((send ⟨failSeq e (n + 1) ++ rest, []⟩ cmd
        (n + 1)).2.log) = n + 1 ∧
    defaultAttempts = 3 := by
  have hok := sendLoop_failSeq_ok cmd e hT k n [] rest hk
  have hex := sendLoop_failSeq_exhaust cmd e hT (n + 1) [] rest
  refine ⟨?_, ?_, ?_, ?_, ?_, ?_, rfl⟩
  · simpa [send] using hok
  · simp [send, hok, sendallCount_append, sendallCount_flat]
    rfl
  · simpa [send] using sendLoop_fail_nontransient cmd en rest [] n hN
  · simpa [send] using sendLoop_otherErr cmd rest [] n
  · simp [send, hex]
  · simp [send, hex, sendallCount_flat]

/-- Witness for `send_retry_contract` at `e = ECONNRESET`, `en = 13`
(EACCES, not in the transient set), two transient failures within a budget
of 3 attempts. -/
theorem send_retry_contract_inst :
    transientErrno ECONNRESET = true ∧ transientErrno 13 = false ∧ 2 ≤ 2 ∧
    (send ⟨failSeq ECONNRESET 2 ++ Outcome.ok "" :: [], []⟩ "check foo k"
        (2 + 1)
      = (Except.ok (),
          ⟨[], (List.replicate 2
              [NetOp.sendall ("check foo k" ++ "\n"), NetOp.connect]).flatten
            ++ [NetOp.sendall ("check foo k" ++ "\n")]⟩) ∧
     sendallCount
        ((send ⟨failSeq ECONNRESET 2 ++ Outcome.ok "" :: [], []⟩
          "check foo k" (2 + 1)).2.log) = 2 + 1 ∧
     send ⟨Outcome.sockErr 13 :: [], []⟩ "check foo k" (2 + 1)
      = (Except.error (PErr.sockErr 13),
          ⟨[], [NetOp.sendall ("check foo k" ++ "\n")]⟩) ∧
     send ⟨Outcome.otherErr :: [], []⟩ "check foo k" (2 + 1)
      = (Except.error PErr.nonSockErr,
          ⟨[], [NetOp.sendall ("check foo k" ++ "\n")]⟩) ∧
     (send ⟨failSeq ECONNRESET (2 + 1) ++ [], []⟩ "check foo k" (2 + 1)).1
      = Except.error PErr.envErr ∧
     sendallCount ((send ⟨failSeq ECONNRESET (2 + 1) ++ [], []⟩
        "check foo k" (2 + 1)).2.log) = 2 + 1 ∧
     defaultAttempts = 3) :=
  ⟨by decide, by decide, by decide,
    send_retry_contract ECONNRESET 13 "check foo k" 2 2 [] (by decide)
      (by decide) (by decide)⟩

/-- C10 counterexample: in `send_and_receive`, a connect error raised by
the reconnection inside the nested `send` does NOT propagate immediately to
the caller.  Script: `sendall` raises a transient reset, the reconnect
inside `send` raises ECONNREFUSED; `send_and_receive` catches that
`socket.error` (its errno is in the transient set), reconnects again
(successfully) and retries the whole round trip, which succeeds — so the
call returns `Done` after further retry attempts, contradicting the claim
that the connect error propagates immediately with no further attempts. -/
theorem reconnect_failure_cex :
    send_and_receive ⟨[Outcome.sockErr ECONNRESET,
        Outcome.sockErr ECONNREFUSED, Outcome.ok "", Outcome.ok "",
        Outcome.ok "Done"], []⟩ "set foo k" defaultAttempts
      = (Except.ok "Done",
          ⟨[], [NetOp.sendall "set foo k\n", NetOp.connect, NetOp.connect,
            NetOp.sendall "set foo k\n", NetOp.readline]⟩) := rfl

/-- C10 (amended): in `send`, when a transient socket error is caught and
the reconnection itself fails, the connect error propagates immediately
(one `sendall`, one `connect`, no further attempts, no exhaustion error);
likewise in `send_and_receive` when the failing reconnection is the one in
its own handler (after a transient read failure).  But a connect error
raised inside the nested `send` is a `socket.error` caught by
`send_and_receive`: when its errno is transient (e.g. ECONNREFUSED),
`send_and_receive` reconnects again and retries the whole round trip, which
can then succeed. -/
theorem reconnect_failure_propagation (e e2 : Nat) (cmd line : String)
    (n : Nat) (rest : List Outcome) (hT : transientErrno e = true) :
    send ⟨Outcome.sockErr e :: Outcome.sockErr e2 :: rest, []⟩ cmd (n + 1)
      = (Except.error (PErr.sockErr e2),
          ⟨rest, [NetOp.sendall (cmd ++ "\n"), NetOp.connect]⟩) ∧
    send_and_receive ⟨Outcome.ok "" :: Outcome.sockErr e ::
        Outcome.sockErr e2 :: rest, []⟩ cmd (n + 1)
      = (Except.error (PErr.sockErr e2),
          ⟨rest, [NetOp.sendall (cmd ++ "\n"), NetOp.readline,
            NetOp.connect]⟩) ∧
    (send_and_receive ⟨[Outcome.sockErr e, Outcome.sockErr ECONNREFUSED,
        Outcome.ok "", Outcome.ok "", Outcome.ok line], []⟩ cmd (n + 2)).1
      = Except.ok (rstripCRLF line) := by
  refine ⟨?_, ?_, ?_⟩
  · simpa [send] using
      sendLoop_fail_reconnect_fail cmd e e2 rest [] n hT
  · simp [send_and_receive, sarLoop, sendLoop_ok, connRead, prim,
      create_socket, hT, Except.map]
  · have h1 : sendLoop cmd ⟨[Outcome.sockErr e,
        Outcome.sockErr ECONNREFUSED, Outcome.ok "", Outcome.ok "",
        Outcome.ok line], []⟩ (n + 1 + 1)
        = (Except.error (PErr.sockErr ECONNREFUSED),
            ⟨Outcome.ok "" :: [Outcome.ok "", Outcome.ok line],
              [NetOp.sendall (cmd ++ "\n"), NetOp.connect]⟩) :=
      sendLoop_fail_reconnect_fail cmd e ECONNREFUSED _ [] (n + 1) hT
    have h2 := sarLoop_send_transient_reconnect_ok cmd (n + 1 + 1)
      ECONNREFUSED ⟨[Outcome.sockErr e, Outcome.sockErr ECONNREFUSED,
        Outcome.ok "", Outcome.ok "", Outcome.ok line], []⟩ ""
      [Outcome.ok "", Outcome.ok line]
      [NetOp.sendall (cmd ++ "\n"), NetOp.connect] (n + 1) (by decide) h1
    have h3 := sarLoop_ok_ok cmd "" line []
      ([NetOp.sendall (cmd ++ "\n"), NetOp.connect] ++ [NetOp.connect])
      (n + 1) n
    show (sarLoop cmd (n + 1 + 1) ⟨[Outcome.sockErr e,
        Outcome.sockErr ECONNREFUSED, Outcome.ok "", Outcome.ok "",
        Outcome.ok line], []⟩ (n + 1 + 1)).1 = Except.ok (rstripCRLF line)
    rw [h2, h3]

/-- Witness for `reconnect_failure_propagation` at `e = ECONNRESET`,
`e2 = ECONNREFUSED`, budget 3. -/
theorem reconnect_failure_propagation_inst :
    transientErrno ECONNRESET = true ∧
    (send ⟨Outcome.sockErr ECONNRESET :: Outcome.sockErr ECONNREFUSED :: [],
        []⟩ "info foo" (2 + 1)
      = (Except.error (PErr.sockErr ECONNREFUSED),
          ⟨[], [NetOp.sendall ("info foo" ++ "\n"), NetOp.connect]⟩) ∧
     send_and_receive ⟨Outcome.ok "" :: Outcome.sockErr ECONNRESET ::
        Outcome.sockErr ECONNREFUSED :: [], []⟩ "info foo" (2 + 1)
      = (Except.error (PErr.sockErr ECONNREFUSED),
          ⟨[], [NetOp.sendall ("info foo" ++ "\n"), NetOp.readline,
            NetOp.connect]⟩) ∧
     (send_and_receive ⟨[Outcome.sockErr ECONNRESET,
        Outcome.sockErr ECONNREFUSED, Outcome.ok "", Outcome.ok "",
        Outcome.ok "Yes"], []⟩ "info foo" (2 + 2)).1
      = Except.ok (rstripCRLF "Yes")) :=
  ⟨by decide,
    reconnect_failure_propagation ECONNRESET ECONNREFUSED "info foo" "Yes"
      2 [] (by decide)⟩

/-! ## Lemmas for the client layer -/

lemma servers_server_connection (st : ClientSt) (s : String) :
    (server_connection st s).1.servers = st.servers := by
  simp only [server_connection]
  split <;> rfl

lemma server_info_server_connection (st : ClientSt) (s : String) :
    (server_connection st s).1.server_info = st.server_info := by
  simp only [server_connection]
  split <;> rfl

lemma info_time_server_connection (st : ClientSt) (s : String) :
    (server_connection st s).1.info_time = st.info_time := by
  simp only [server_connection]
  split <;> rfl

lemma listSends_server_connection (st : ClientSt) (s : String) :
    listSends (server_connection st s).2 = 0 := by
  simp only [server_connection]
  split <;> rfl

lemma listSends_append (l1 l2 : List CEvent) :
    listSends (l1 ++ l2) = listSends l1 + listSends l2 := by
  simp [listSends, List.countP_append]

lemma sendCmdLoop_sends (c : Cmd) :
    ∀ (ss : List String) (st : ClientSt) (s : String), s ∈ ss →
      CEvent.cmdTo s c ∈ (sendCmdLoop c st ss).2 := by
  intro ss
  induction ss with
  | nil => intro st s hs; cases hs
  | cons server rest ih =>
    intro st s hs
    simp only [sendCmdLoop]
    rcases List.mem_cons.mp hs with h | h
    · subst h; simp
    · simp [ih _ s h]

lemma listSends_nil : listSends [] = 0 := rfl

lemma listSends_cmdTo_list_cons (s : String) (l : List CEvent) :
    listSends (CEvent.cmdTo s Cmd.listCmd :: l) = listSends l + 1 := by
  simp [listSends, List.countP_cons]

lemma listSends_readBlock_cons (s : String) (l : List CEvent) :
    listSends (CEvent.readBlockFrom s :: l) = listSends l := by
  simp [listSends, List.countP_cons]

lemma sendCmdLoop_listSends_list :
    ∀ (ss : List String) (st : ClientSt),
      listSends (sendCmdLoop Cmd.listCmd st ss).2 = ss.length := by
  intro ss
  induction ss with
  | nil => intro st; rfl
  | cons server rest ih =>
    intro st
    simp only [sendCmdLoop, listSends_append, listSends_server_connection,
      listSends_cmdTo_list_cons, listSends_nil, ih, List.length_cons]
    omega

lemma servers_sendCmdLoop (c : Cmd) :
    ∀ (ss : List String) (st : ClientSt),
      (sendCmdLoop c st ss).1.servers = st.servers := by
  intro ss
  induction ss with
  | nil => intro st; rfl
  | cons server rest ih =>
    intro st
    simp [sendCmdLoop, ih, servers_server_connection]

lemma servers_readListLoop (replies : String → List (String × String)) :
    ∀ (ss : List String) (st : ClientSt)
      (acc : List (String × String × String)),
      (readListLoop replies st ss acc).2.1.servers = st.servers := by
  intro ss
  induction ss with
  | nil => intro st acc; rfl
  | cons server rest ih =>
    intro st acc
    simp [readListLoop, ih, servers_server_connection]

lemma listSends_readListLoop (replies : String → List (String × String)) :
    ∀ (ss : List String) (st : ClientSt)
      (acc : List (String × String × String)),
      listSends (readListLoop replies st ss acc).2.2 = 0 := by
  intro ss
  induction ss with
  | nil => intro st acc; rfl
  | cons server rest ih =>
    intro st acc
    simp only [readListLoop, listSends_append, listSends_server_connection,
      listSends_readBlock_cons, listSends_nil, ih]

lemma servers_list_filters (st : ClientSt)
    (replies : String → List (String × String)) :
    (list_filters st replies).2.1.servers = st.servers := by
  simp [list_filters, sendCmdToAll, servers_readListLoop,
    servers_sendCmdLoop]

lemma listSends_list_filters (st : ClientSt)
    (replies : String → List (String × String)) :
    listSends (list_filters st replies).2.2 = st.servers.length := by
  simp [list_filters, sendCmdToAll, listSends_append,
    listSends_readListLoop, sendCmdLoop_listSends_list]

lemma infoFalsy_of_lookup {oinfo : Option (List (String × String × String))}
    {name : String} {v : String × String}
    (h : lookupInfo oinfo name = some v) : infoFalsy oinfo = false := by
  match oinfo with
  | none => simp [lookupInfo] at h
  | some [] => simp [lookupInfo, dlookup] at h
  | some (e :: rest) => rfl

lemma readFlushLoop_result (reply : String → String) :
    ∀ (ss : List String) (st : ClientSt),
      (readFlushLoop reply st ss).1
        = (match ss.find? (fun s => !(reply s == "Done")) with
           | some s0 => Except.error (CErr.gotResponseFrom (reply s0) s0)
           | none => Except.ok ()) := by
  intro ss
  induction ss with
  | nil => intro st; rfl
  | cons server rest ih =>
    intro st
    by_cases h : reply server = "Done"
    · have hb : (reply server == "Done") = true := beq_iff_eq.mpr h
      simp [readFlushLoop, h, List.find?, hb, ih]
    · have hb : (reply server == "Done") = false :=
        beq_eq_false_iff_ne.mpr h
      simp [readFlushLoop, h, List.find?, hb]

/-! ## Claim theorems: client layer -/

/-- C8 counterexample: the connection cache is keyed by the raw server
string, not by the parsed `(host, port)` address.  The strings `"h"` and
`"h:8673"` denote the same server address (default port 8673), yet after
contacting both, the client holds two distinct Transport Connection
entries for that one address. -/
theorem conn_per_address_cex :
    parseServer "h" = some ("h", 8673) ∧
    parseServer "h:8673" = some ("h", 8673) ∧
    addrConnCount
      ((server_connection
        ((server_connection ⟨["h", "h:8673"], [], none, 0⟩ "h").1)
        "h:8673").1) ("h", 8673) = 2 := by
  refine ⟨by decide, by decide, by decide⟩

/-- C8 (amended): connections are cached with exactly one entry per
distinct server STRING: provided the cache has no duplicate entries,
`_server_connection` keeps it duplicate-free, only ever appends, returns
the cached entry untouched (with no connect) when the string is present,
creates and caches exactly one new connection (one connect event) when it
is absent, and afterwards the string has exactly one cache entry.  (Two
different strings denoting the same parsed address get separate
connections, per the counterexample.) -/
theorem conn_cache_per_string (st : ClientSt) (s : String)
    (hN : st.conns.Nodup) :
    (server_connection st s).1.conns.Nodup ∧
    s ∈ (server_connection st s).1.conns ∧
    (∃ t, (server_connection st s).1.conns = st.conns ++ t) ∧
    (s ∈ st.conns → server_connection st s = (st, [])) ∧
    (s ∉ st.conns → (server_connection st s).1.conns = st.conns ++ [s] ∧
      (server_connection st s).2 = [CEvent.connectTo s]) ∧
    (server_connection st s).1.conns.count s = 1 := by
  by_cases h : s ∈ st.conns
  · refine ⟨by simpa [server_connection, h] using hN,
      by simp [server_connection, h],
      ⟨[], by simp [server_connection, h]⟩,
      fun _ => by simp [server_connection, h],
      fun hc => absurd h hc,
      ?_⟩
    simp only [server_connection, h, if_pos]
    exact List.count_eq_one_of_mem hN h
  · have hnodup : (st.conns ++ [s]).Nodup := by
      simp [List.nodup_append, hN, h]
    refine ⟨by simpa [server_connection, h] using hnodup,
      by simp [server_connection, h],
      ⟨[s], by simp [server_connection, h]⟩,
      fun hc => absurd hc h,
      fun _ => by simp [server_connection, h],
      ?_⟩
    simp only [server_connection, h, if_neg, not_false_iff]
    rw [List.count_append]
    rw [List.count_eq_zero_of_not_mem h]
    simp

/-- Witness for `conn_cache_per_string` on a two-entry duplicate-free
cache and a new server string. -/
theorem conn_cache_per_string_inst :
    (["s1", "s2"] : List String).Nodup ∧
    ((server_connection ⟨["s1", "s2", "s3"], ["s1", "s2"], none, 0⟩
        "s3").1.conns.Nodup ∧
      "s3" ∈ (server_connection ⟨["s1", "s2", "s3"], ["s1", "s2"], none, 0⟩
        "s3").1.conns ∧
      (∃ t, (server_connection ⟨["s1", "s2", "s3"], ["s1", "s2"], none, 0⟩
          "s3").1.conns = ["s1", "s2"] ++ t) ∧
      ("s3" ∈ (["s1", "s2"] : List String) →
        server_connection ⟨["s1", "s2", "s3"], ["s1", "s2"], none, 0⟩ "s3"
          = (⟨["s1", "s2", "s3"], ["s1", "s2"], none, 0⟩, [])) ∧
      ("s3" ∉ (["s1", "s2"] : List String) →
        (server_connection ⟨["s1", "s2", "s3"], ["s1", "s2"], none, 0⟩
            "s3").1.conns = ["s1", "s2"] ++ ["s3"] ∧
          (server_connection ⟨["s1", "s2", "s3"], ["s1", "s2"], none, 0⟩
            "s3").2 = [CEvent.connectTo "s3"]) ∧
      (server_connection ⟨["s1", "s2", "s3"], ["s1", "s2"], none, 0⟩
        "s3").1.conns.count "s3" = 1) :=
  ⟨by decide,
    conn_cache_per_string ⟨["s1", "s2", "s3"], ["s1", "s2"], none, 0⟩ "s3"
      (by decide)⟩

/-- C7: `flush` first sends the `flush` command to every configured server
(so servers before and after a failing one still receive their flush — no
rollback), and then checks the replies in configured order: the result is
the `BloomdError` naming the first server whose reply is not `Done`
(`PartialFailureError` naming the offending server), or success when every
reply is `Done`. -/
theorem flush_fanout (st : ClientSt) (reply : String → String) :
    (∀ s ∈ st.servers, CEvent.cmdTo s Cmd.flushCmd ∈ (flush st reply).2.2) ∧
    (flush st reply).1
      = (match st.servers.find? (fun s => !(reply s == "Done")) with
         | some s0 => Except.error (CErr.gotResponseFrom (reply s0) s0)
         | none => Except.ok ()) := by
  constructor
  · intro s hs
    have hmem := sendCmdLoop_sends Cmd.flushCmd st.servers st s hs
    simp only [flush, sendCmdToAll]
    exact List.mem_append_left _ hmem
  · simp only [flush, sendCmdToAll]
    exact readFlushLoop_result reply st.servers _

/-- Witness for `flush_fanout`: three servers where the second replies
`ERR`; the call fails naming the second server, and the third server
still received its flush command. -/
theorem flush_fanout_inst :
    (flush ⟨["s1", "s2", "s3"], [], none, 0⟩
        (fun s => if s = "s2" then "ERR" else "Done")).1
      = Except.error (CErr.gotResponseFrom "ERR" "s2") ∧
    CEvent.cmdTo "s3" Cmd.flushCmd ∈
      (flush ⟨["s1", "s2", "s3"], [], none, 0⟩
        (fun s => if s = "s2" then "ERR" else "Done")).2.2 := by
  have h := flush_fanout ⟨["s1", "s2", "s3"], [], none, 0⟩
    (fun s => if s = "s2" then "ERR" else "Done")
  refine ⟨?_, h.1 "s3" (by decide)⟩
  rw [h.2]
  rfl

/-- C3 counterexample: at a cache age exactly equal to the TTL (300
seconds), the code does NOT refresh: the stale-check is strict
(`time.time() - self.info_time > 300`), so a read at age = 300 with the
filter present in the snapshot is served from the cache with zero network
events and an unchanged snapshot, contradicting the claim that a read at
age ≥ TTL triggers a full-fleet refresh before the cache is trusted. -/
theorem cache_ttl_boundary_cex :
    (300 : Nat) - (0 : Nat) = 300 ∧
    get_connection ⟨["a", "b"], ["a", "b"], some [("f", "a", "")], 0⟩
        (fun _ => []) 300 "f" true none
      = (Except.ok "a", ⟨["a", "b"], ["a", "b"], some [("f", "a", "")], 0⟩,
          []) :=
  ⟨rfl, rfl⟩

/-- C3 (amended): in multi-server mode, a routing-cache read at age at
most the TTL (`now - info_time ≤ 300`; strictly greater than 300 triggers
the refresh, so age exactly 300 is still fresh) with the filter present in
the snapshot and the owning server's connection already cached performs
zero network events and leaves the client state untouched; a read when the
cache is unpopulated/empty or its age exceeds 300 performs exactly one
full-fleet `list` fan-out (`servers.length` `list` commands) and wholesale
replaces the snapshot (`server_info` becomes exactly the merged fan-out
result, `info_time` becomes `now`) before the cache is consulted. -/
theorem cache_read_refresh (st : ClientSt)
    (replies : String → List (String × String)) (now : Nat)
    (f serv inf : String) (strict : Bool) (es : Option String) :
    (st.servers.length ≠ 1 →
      now - st.info_time ≤ 300 →
      lookupInfo st.server_info f = some (serv, inf) →
      serv ∈ st.conns →
      get_connection st replies now f strict es = (Except.ok serv, st, [])) ∧
    (st.servers.length ≠ 1 →
      (infoFalsy st.server_info = true ∨ 300 < now - st.info_time) →
      dlookup (list_filters st replies).1 f = some (serv, inf) →
      (get_connection st replies now f strict es).1 = Except.ok serv ∧
        (get_connection st replies now f strict es).2.1.server_info
          = some (list_filters st replies).1 ∧
        (get_connection st replies now f strict es).2.1.info_time = now ∧
        listSends (get_connection st replies now f strict es).2.2
          = st.servers.length) := by
  constructor
  · intro hMulti hTTL hFound hConn
    have hFresh : infoFalsy st.server_info = false :=
      infoFalsy_of_lookup hFound
    have hcs : cacheStale st now = false := by
      simp only [cacheStale, hFresh, Bool.false_or, decide_eq_false_iff_not]
      omega
    simp [get_connection, hMulti, hcs, hFound, server_connection, hConn]
  · intro hMulti hStale hFound
    have hcs : cacheStale st now = true := by
      rcases hStale with h | h
      · simp [cacheStale, h]
      · simp [cacheStale, h]
    rcases hlf : list_filters st replies with ⟨info1, st1, l1⟩
    have hls : listSends l1 = st.servers.length := by
      have h := listSends_list_filters st replies
      rw [hlf] at h
      exact h
    rw [hlf] at hFound
    simp only at hFound
    refine ⟨?_, ?_, ?_, ?_⟩ <;>
      simp [get_connection, hMulti, hcs, hlf, lookupInfo, hFound,
        server_info_server_connection, info_time_server_connection,
        listSends_append, listSends_server_connection, hls]

/-- Witness for `cache_read_refresh`: two servers; fresh branch at age 250
with the filter cached on server `a`; stale branch at age 301 where the
fan-out lists the filter on server `b`. -/
theorem cache_read_refresh_inst :
    ((⟨["a", "b"], ["a", "b"], some [("f", "a", "")], 0⟩ :
        ClientSt).servers.length ≠ 1 ∧
      (250 : Nat) - 0 ≤ 300 ∧
      get_connection ⟨["a", "b"], ["a", "b"], some [("f", "a", "")], 0⟩
          (fun _ => [("f", "x")]) 250 "f" true none
        = (Except.ok "a",
            ⟨["a", "b"], ["a", "b"], some [("f", "a", "")], 0⟩, [])) ∧
    (300 < (301 : Nat) - 0 ∧
      (get_connection ⟨["a", "b"], ["a", "b"], some [("f", "a", "")], 0⟩
          (fun s => if s = "b" then [("f", "y")] else []) 301 "f" true
          none).1 = Except.ok "b" ∧
      listSends (get_connection ⟨["a", "b"], ["a", "b"],
          some [("f", "a", "")], 0⟩
          (fun s => if s = "b" then [("f", "y")] else []) 301 "f" true
          none).2.2 = 2) := by
  have h1 := (cache_read_refresh
    ⟨["a", "b"], ["a", "b"], some [("f", "a", "")], 0⟩
    (fun _ => [("f", "x")]) 250 "f" "a" "" true none).1
    (by decide) (by decide) (by decide) (by decide)
  have h2 := (cache_read_refresh
    ⟨["a", "b"], ["a", "b"], some [("f", "a", "")], 0⟩
    (fun s => if s = "b" then [("f", "y")] else []) 301 "f" "b" "y" true
    none).2 (by decide) (Or.inr (by decide)) (by decide)
  exact ⟨⟨by decide, by decide, h1⟩, ⟨by decide, h2.1, h2.2.2.2⟩⟩

/-- C5: strict resolution in multi-server mode with a fresh cache that
does not contain the filter forces exactly one unconditional full-fleet
refresh (`servers.length` `list` commands) and installs the refreshed
snapshot; if the filter is found in the refreshed snapshot the call
returns a handle bound to the owning server, and if it is still not found
the call fails with the `BloomdError("Filter does not exist!")`
(FilterNotFoundError). -/
theorem strict_resolution (st : ClientSt)
    (replies : String → List (String × String)) (now : Nat)
    (f serv inf : String)
    (hMulti : st.servers.length ≠ 1)
    (hFresh : infoFalsy st.server_info = false)
    (hTTL : now - st.info_time ≤ 300)
    (hMiss : lookupInfo st.server_info f = none) :
    listSends (getItem st replies now f).2.2 = st.servers.length ∧
    (getItem st replies now f).2.1.server_info
      = some (list_filters st replies).1 ∧
    (dlookup (list_filters st replies).1 f = some (serv, inf) →
      (getItem st replies now f).1 = Except.ok (serv, f)) ∧
    (dlookup (list_filters st replies).1 f = none →
      (getItem st replies now f).1 = Except.error CErr.filterNotFound) := by
  have hcs : cacheStale st now = false := by
    simp only [cacheStale, hFresh, Bool.false_or, decide_eq_false_iff_not]
    omega
  rcases hlf : list_filters st replies with ⟨info2, st2, l2⟩
  have hls : listSends l2 = st.servers.length := by
    have h := listSends_list_filters st replies
    rw [hlf] at h
    exact h
  rcases hdl : dlookup info2 f with _ | ⟨serv2, inf2⟩
  · refine ⟨?_, ?_, ?_, ?_⟩ <;>
      simp [getItem, get_connection, hMulti, hcs, hMiss, hlf,
        hdl, listSends_append, hls, listSends_nil]
  · refine ⟨?_, ?_, ?_, ?_⟩ <;>
      simp [getItem, get_connection, hMulti, hcs, hMiss, hlf,
        hdl, listSends_append, hls, listSends_nil,
        server_info_server_connection, listSends_server_connection]
    exact fun h _ => h

/-- Witness for `strict_resolution`: two servers, a fresh snapshot that
lacks filter `g`; with a fan-out that finds `g` on server `b` the call
binds to `b`; with an empty fan-out it fails with the
filter-does-not-exist error. -/
theorem strict_resolution_inst :
    ((getItem ⟨["a", "b"], ["a", "b"], some [("f", "a", "")], 0⟩
        (fun s => if s = "b" then [("g", "y")] else []) 10 "g").1
      = Except.ok ("b", "g")) ∧
    ((getItem ⟨["a", "b"], ["a", "b"], some [("f", "a", "")], 0⟩
        (fun _ => []) 10 "g").1 = Except.error CErr.filterNotFound) ∧
    listSends (getItem ⟨["a", "b"], ["a", "b"], some [("f", "a", "")], 0⟩
        (fun _ => []) 10 "g").2.2 = 2 := by
  have h1 := strict_resolution ⟨["a", "b"], ["a", "b"],
    some [("f", "a", "")], 0⟩ (fun s => if s = "b" then [("g", "y")] else [])
    10 "g" "b" "y" (by decide) (by decide) (by decide) (by decide)
  have h2 := strict_resolution ⟨["a", "b"], ["a", "b"],
    some [("f", "a", "")], 0⟩ (fun _ => []) 10 "g" "b" "y" (by decide)
    (by decide) (by decide) (by decide)
  exact ⟨h1.2.2.1 (by decide), h2.2.2.2 (by decide), h2.1⟩

/-! ## The least-used-server selection order -/

lemma listLeB_refl : ∀ as, listLeB as as = true := by
  intro as
  induction as with
  | nil => rfl
  | cons a as ih => simp [listLeB, ih]

lemma listLeB_total : ∀ as bs, listLeB as bs = true ∨ listLeB bs as = true := by
  intro as
  induction as with
  | nil => intro bs; left; rfl
  | cons a as ih =>
    intro bs
    cases bs with
    | nil => right; rfl
    | cons b bs =>
      rcases Nat.lt_trichotomy a.toNat b.toNat with h | h | h
      · left; simp [listLeB, h]
      · rcases ih bs with h2 | h2
        · left; simp [listLeB, h, h2]
        · right; simp [listLeB, h, h2]
      · right; simp [listLeB, h]

lemma listLeB_trans : ∀ as bs cs, listLeB as bs = true →
    listLeB bs cs = true → listLeB as cs = true := by
  intro as
  induction as with
  | nil => intro bs cs h1 h2; rfl
  | cons a as ih =>
    intro bs cs h1 h2
    cases bs with
    | nil => simp [listLeB] at h1
    | cons b bs =>
      cases cs with
      | nil => simp [listLeB] at h2
      | cons c cs =>
        by_cases hab : a.toNat < b.toNat
        · by_cases hbc : b.toNat < c.toNat
          · simp [listLeB, Nat.lt_trans hab hbc]
          · by_cases hbc2 : b.toNat = c.toNat
            · have hac : a.toNat < c.toNat := hbc2 ▸ hab
              simp [listLeB, hac]
            · simp [listLeB, hbc, hbc2] at h2
        · by_cases hab2 : a.toNat = b.toNat
          · by_cases hbc : b.toNat < c.toNat
            · have hac : a.toNat < c.toNat := hab2 ▸ hbc
              simp [listLeB, hac]
            · by_cases hbc2 : b.toNat = c.toNat
              · have h1' : listLeB as bs = true := by
                  simpa [listLeB, hab, hab2] using h1
                have h2' : listLeB bs cs = true := by
                  simpa [listLeB, hbc, hbc2] using h2
                have hac2 : a.toNat = c.toNat := hab2.trans hbc2
                have hnac : ¬a.toNat < c.toNat := by omega
                simp [listLeB, hnac, hac2, ih bs cs h1' h2']
              · simp [listLeB, hbc, hbc2] at h2
          · simp [listLeB, hab, hab2] at h1

lemma strLeB_refl (a : String) : strLeB a a = true := listLeB_refl a.data

lemma strLeB_total (a b : String) :
    strLeB a b = true ∨ strLeB b a = true := listLeB_total a.data b.data

lemma strLeB_trans {a b c : String} (h1 : strLeB a b = true)
    (h2 : strLeB b c = true) : strLeB a c = true :=
  listLeB_trans a.data b.data c.data h1 h2

lemma pairLe_iff (a b : Nat × String) :
    pairLeProp a b ↔ (a.1 < b.1 ∨ (a.1 = b.1 ∧ strLeB a.2 b.2 = true)) := by
  simp [pairLeProp]

instance : IsTotal (Nat × String) pairLeProp where
  total a b := by
    rw [pairLe_iff, pairLe_iff]
    rcases Nat.lt_trichotomy a.1 b.1 with h | h | h
    · exact Or.inl (Or.inl h)
    · rcases strLeB_total a.2 b.2 with h2 | h2
      · exact Or.inl (Or.inr ⟨h, h2⟩)
      · exact Or.inr (Or.inr ⟨h.symm, h2⟩)
    · exact Or.inr (Or.inl h)

instance : IsTrans (Nat × String) pairLeProp where
  trans a b c h1 h2 := by
    rw [pairLe_iff] at h1 h2 ⊢
    rcases h1 with h1 | ⟨h1, h1s⟩
    · rcases h2 with h2 | ⟨h2, _⟩
      · exact Or.inl (Nat.lt_trans h1 h2)
      · exact Or.inl (h2 ▸ h1)
    · rcases h2 with h2 | ⟨h2, h2s⟩
      · exact Or.inl (h1 ▸ h2)
      · exact Or.inr ⟨h1.trans h2, strLeB_trans h1s h2s⟩

lemma pickLeast_eq_of_guard (servers : List String)
    (info : List (String × String × String))
    (hguard : info.all (fun e => decide (e.2.1 ∈ servers.dedup)) = true) :
    pickLeast servers info
      = (((servers.dedup.map
            (fun s => (ownedCount info s, s))).insertionSort
              pairLeProp).head?).map (fun p => p.2) := by
  simp only [pickLeast]
  rw [if_pos hguard]

/-- The selection at the end of `_get_connection` returns a configured
server with the minimum `(count, server-string)` pair: fewest owned
filters, ties broken by the code-point order of the server strings. -/
lemma pickLeast_spec (servers : List String)
    (info : List (String × String × String))
    (hOwn : ∀ e ∈ info, e.2.1 ∈ servers) (hNe : servers ≠ []) :
    ∃ serv, pickLeast servers info = some serv ∧ serv ∈ servers ∧
      ∀ s ∈ servers,
        ownedCount info serv < ownedCount info s ∨
          (ownedCount info serv = ownedCount info s ∧
            strLeB serv s = true) := by
  have hguard : info.all (fun e => decide (e.2.1 ∈ servers.dedup)) = true := by
    rw [List.all_eq_true]
    intro e he
    simpa [List.mem_dedup] using hOwn e he
  have hkne : servers.dedup ≠ [] := by
    simpa [List.dedup_eq_nil] using hNe
  have hcne : servers.dedup.map (fun s => (ownedCount info s, s)) ≠ [] := by
    simpa using hkne
  have hsne : ((servers.dedup.map
      (fun s => (ownedCount info s, s))).insertionSort pairLeProp) ≠ [] := by
    intro h
    apply hcne
    have hlen := List.length_insertionSort pairLeProp
      (servers.dedup.map (fun s => (ownedCount info s, s)))
    rw [h] at hlen
    exact List.eq_nil_of_length_eq_zero hlen.symm
  obtain ⟨p, t, hpt⟩ := List.exists_cons_of_ne_nil hsne
  have hsorted : List.Sorted pairLeProp (p :: t) := by
    rw [← hpt]
    exact List.sorted_insertionSort pairLeProp _
  have hpmem : p ∈ servers.dedup.map (fun s => (ownedCount info s, s)) := by
    have hp : p ∈ (servers.dedup.map
        (fun s => (ownedCount info s, s))).insertionSort pairLeProp := by
      rw [hpt]
      exact List.mem_cons_self p t
    simpa [List.mem_insertionSort] using hp
  obtain ⟨s0, hs0k, hs0⟩ := List.mem_map.mp hpmem
  refine ⟨s0, ?_, List.mem_dedup.mp hs0k, ?_⟩
  · rw [pickLeast_eq_of_guard servers info hguard, hpt]
    simp [← hs0]
  · intro s hs
    have hsmem : (ownedCount info s, s) ∈ (servers.dedup.map
        (fun s => (ownedCount info s, s))).insertionSort pairLeProp := by
      simp only [List.mem_insertionSort]
      exact List.mem_map_of_mem _ (List.mem_dedup.mpr hs)
    rw [hpt] at hsmem
    rcases List.mem_cons.mp hsmem with heq | hmem
    · rw [← hs0] at heq
      have h1 : ownedCount info s = ownedCount info s0 :=
        congrArg Prod.fst heq
      have h2 : s = s0 := congrArg Prod.snd heq
      right
      exact ⟨h1.symm, h2 ▸ strLeB_refl s0⟩
    · have hrel : pairLeProp p (ownedCount info s, s) :=
        List.rel_of_sorted_cons hsorted _ hmem
      rw [← hs0, pairLe_iff] at hrel
      exact hrel

/-! ## Owners of routing-snapshot entries -/

lemma mem_dinsert {α : Type} (k : String) (v : α) :
    ∀ (d : List (String × α)) (e : String × α),
      e ∈ dinsert d k v → e = (k, v) ∨ e ∈ d := by
  intro d
  induction d with
  | nil =>
    intro e he
    simp [dinsert] at he
    left
    simp [he]
  | cons kv rest ih =>
    intro e he
    rcases kv with ⟨k0, v0⟩
    by_cases h : k0 = k
    · rw [dinsert, if_pos h] at he
      rcases List.mem_cons.mp he with h2 | h2
      · left
        rw [h2, h]
      · right
        exact List.mem_cons_of_mem _ h2
    · rw [dinsert, if_neg h] at he
      rcases List.mem_cons.mp he with h2 | h2
      · right
        rw [h2]
        exact List.mem_cons_self _ _
      · rcases ih e h2 with h3 | h3
        · left
          exact h3
        · right
          exact List.mem_cons_of_mem _ h3

lemma foldl_dinsert_owner (server : String) :
    ∀ (ps : List (String × String))
      (acc : List (String × String × String)) (e : String × String × String),
      e ∈ ps.foldl (fun d p => dinsert d p.1 (server, p.2)) acc →
      e ∈ acc ∨ e.2.1 = server := by
  intro ps
  induction ps with
  | nil => intro acc e he; left; exact he
  | cons p rest ih =>
    intro acc e he
    rcases ih (dinsert acc p.1 (server, p.2)) e he with h | h
    · rcases mem_dinsert p.1 (server, p.2) acc e h with h2 | h2
      · right
        rw [h2]
      · left
        exact h2
    · right
      exact h

lemma readListLoop_owner (replies : String → List (String × String)) :
    ∀ (ss : List String) (st : ClientSt)
      (acc : List (String × String × String)) (e : String × String × String),
      e ∈ (readListLoop replies st ss acc).1 → e ∈ acc ∨ e.2.1 ∈ ss := by
  intro ss
  induction ss with
  | nil => intro st acc e he; left; exact he
  | cons server rest ih =>
    intro st acc e he
    simp only [readListLoop] at he
    rcases ih _ _ e he with h | h
    · rcases foldl_dinsert_owner server (replies server) acc e h with h2 | h2
      · left
        exact h2
      · right
        simp [h2]
    · right
      simp [h]

lemma list_filters_owner (st : ClientSt)
    (replies : String → List (String × String)) :
    ∀ e ∈ (list_filters st replies).1, e.2.1 ∈ st.servers := by
  intro e he
  simp only [list_filters, sendCmdToAll] at he
  rcases readListLoop_owner replies st.servers _ [] e he with h | h
  · cases h
  · exact h

/-- The selection rule STATED BY THE CLAIM (and the spec): among the
servers owning the fewest filters, the first in the configured server
list's order. -/
def firstMinServer (servers : List String)
    (info : List (String × String × String)) : Option String :=
  servers.find?
    (fun s => decide (∀ s2 ∈ servers, ownedCount info s ≤ ownedCount info s2))

/-- C4 counterexample: with configured servers `["b", "a"]` and an empty
snapshot, both servers own 0 filters; the claim's tie-break (configured
order) selects `"b"`, but the code sorts the `(count, server)` pairs and
returns `"a"` — the tie is broken by the lexicographic order of the server
strings, not by the configured list's order. -/
theorem placement_tiebreak_cex :
    firstMinServer ["b", "a"] [] = some "b" ∧
    (get_connection ⟨["b", "a"], [], none, 0⟩ (fun _ => []) 0 "f" false
        none).1 = Except.ok "a" ∧
    ownedCount [] "a" = ownedCount [] "b" ∧
    ("a" : String) ≠ "b" := by
  refine ⟨by decide, rfl, rfl, by decide⟩

/-- C4 (amended): in the non-strict, no-explicit-server case where the
filter is absent from the snapshot even after the forced refresh, the
connection returned is to a configured server owning the fewest filters in
the refreshed snapshot, with ties among servers of equal minimal count
broken by the lexicographic (code-point) order of the server strings — not
by the configured list's order. -/
theorem placement_least_loaded (st : ClientSt)
    (replies : String → List (String × String)) (now : Nat) (f : String)
    (hMulti : st.servers.length ≠ 1)
    (hNe : st.servers ≠ [])
    (hFresh : infoFalsy st.server_info = false)
    (hTTL : now - st.info_time ≤ 300)
    (hMiss1 : lookupInfo st.server_info f = none)
    (hMiss2 : dlookup (list_filters st replies).1 f = none) :
    ∃ serv,
      (get_connection st replies now f false none).1 = Except.ok serv ∧
      serv ∈ st.servers ∧
      ∀ s ∈ st.servers,
        ownedCount (list_filters st replies).1 serv
            < ownedCount (list_filters st replies).1 s ∨
          (ownedCount (list_filters st replies).1 serv
              = ownedCount (list_filters st replies).1 s ∧
            strLeB serv s = true) := by
  have hcs : cacheStale st now = false := by
    simp only [cacheStale, hFresh, Bool.false_or, decide_eq_false_iff_not]
    omega
  have hOwn0 := list_filters_owner st replies
  have hsrv0 := servers_list_filters st replies
  rcases hlf : list_filters st replies with ⟨info2, st2, l2⟩
  rw [hlf] at hOwn0 hsrv0 hMiss2
  simp only at hOwn0 hsrv0 hMiss2
  obtain ⟨serv, hpick, hmem, hmin⟩ := pickLeast_spec st.servers info2 hOwn0 hNe
  refine ⟨serv, ?_, hmem, ?_⟩
  · simp [get_connection, hMulti, hcs, hMiss1, hlf, hMiss2, truthyStr,
      hsrv0, hpick]
  · exact hmin

/-- Witness for `placement_least_loaded`: servers `["b", "a"]`, a fresh
snapshot lacking filter `g`, and a fan-out that lists one filter on `a`;
the placement is `b`, the server with the fewest filters. -/
theorem placement_least_loaded_inst :
    (⟨["b", "a"], ["b", "a"], some [("f", "a", "")], 0⟩ :
        ClientSt).servers ≠ [] ∧
    ∃ serv,
      (get_connection ⟨["b", "a"], ["b", "a"], some [("f", "a", "")], 0⟩
          (fun s => if s = "a" then [("f", "i")] else []) 10 "g" false
          none).1 = Except.ok serv ∧
      serv ∈ (⟨["b", "a"], ["b", "a"], some [("f", "a", "")], 0⟩ :
          ClientSt).servers ∧
      ∀ s ∈ (⟨["b", "a"], ["b", "a"], some [("f", "a", "")], 0⟩ :
          ClientSt).servers,
        ownedCount (list_filters
              ⟨["b", "a"], ["b", "a"], some [("f", "a", "")], 0⟩
              (fun s => if s = "a" then [("f", "i")] else [])).1 serv
            < ownedCount (list_filters
              ⟨["b", "a"], ["b", "a"], some [("f", "a", "")], 0⟩
              (fun s => if s = "a" then [("f", "i")] else [])).1 s ∨
          (ownedCount (list_filters
                ⟨["b", "a"], ["b", "a"], some [("f", "a", "")], 0⟩
                (fun s => if s = "a" then [("f", "i")] else [])).1 serv
              = ownedCount (list_filters
                ⟨["b", "a"], ["b", "a"], some [("f", "a", "")], 0⟩
                (fun s => if s = "a" then [("f", "i")] else [])).1 s ∧
            strLeB serv s = true) :=
  ⟨by decide,
    placement_least_loaded
      ⟨["b", "a"], ["b", "a"], some [("f", "a", "")], 0⟩
      (fun s => if s = "a" then [("f", "i")] else []) 10 "g" (by decide)
      (by decide) (by decide) (by decide) (by decide) (by decide)⟩

/-- C6 counterexample: the probability-requires-capacity check is a Python
truthiness check (`if prob and not capacity`).  Passing `prob = 0.0` with
no capacity does NOT raise the `ValueError` (ConfigurationError): the call
proceeds to the network and succeeds (the zero probability is silently
dropped from the command).  Conversely, passing `capacity = 0` together
with a nonzero probability DOES raise the error even though a capacity was
provided. -/
theorem create_prob_zero_cex :
    create_filter ⟨["a"], ["a"], none, 0⟩ (fun _ => []) 0 "f" none
        (some 0) none "Done"
      = (Except.ok ("a", "f"), ⟨["a"], ["a"], none, 0⟩,
          [CEvent.cmdTo "a" (Cmd.create "f" none none),
            CEvent.readLineFrom "a"]) ∧
    create_filter ⟨["a"], ["a"], none, 0⟩ (fun _ => []) 0 "g" (some 0)
        (some 1) none "Done"
      = (Except.error CErr.valueErr, ⟨["a"], ["a"], none, 0⟩, []) :=
  ⟨rfl, rfl⟩

/-- C6 (amended): `create_filter` fails with the `ValueError`
(ConfigurationError) before any network event exactly when the probability
argument is truthy (present and nonzero) and the capacity argument is not
truthy (absent or zero); otherwise it resolves a placement server via the
routing cache in non-strict mode (honouring an explicit server), issues
`create <name> [capacity] [probability]` with only the truthy arguments
included, requires the reply `Done` (returning a Filter Handle bound to
the placement server's connection), and fails with the
`BloomdError("Got response: ...")` on any other reply. -/
theorem create_filter_contract (st : ClientSt)
    (replies : String → List (String × String)) (now : Nat) (name : String)
    (capacity : Option Nat) (prob : Option Rat) (server : Option String)
    (resp serv : String) (st1 : ClientSt) (l1 : List CEvent) :
    (truthyRat prob = true → truthyNat capacity = false →
      create_filter st replies now name capacity prob server resp
        = (Except.error CErr.valueErr, st, [])) ∧
    ((truthyRat prob = true → truthyNat capacity = true) →
      get_connection st replies now name false server
          = (Except.ok serv, st1, l1) →
      (resp = "Done" →
        create_filter st replies now name capacity prob server resp
          = (Except.ok (serv, name), st1,
              l1 ++ [CEvent.cmdTo serv (Cmd.create name
                  (if truthyNat capacity then capacity else none)
                  (if truthyRat prob then prob else none)),
                CEvent.readLineFrom serv])) ∧
      (resp ≠ "Done" →
        create_filter st replies now name capacity prob server resp
          = (Except.error (CErr.gotResponse resp), st1,
              l1 ++ [CEvent.cmdTo serv (Cmd.create name
                  (if truthyNat capacity then capacity else none)
                  (if truthyRat prob then prob else none)),
                CEvent.readLineFrom serv]))) := by
  constructor
  · intro hp hc
    simp [create_filter, hp, hc]
  · intro hpc hconn
    have hguard : (truthyRat prob && !truthyNat capacity) = false := by
      cases hp : truthyRat prob
      · simp
      · simp [hpc hp]
    constructor
    · intro hr
      simp [create_filter, hguard, hconn, hr]
    · intro hr
      simp [create_filter, hguard, hconn, hr]

/-- Witness for `create_filter_contract`: the error branch at
`prob = 1/2` with no capacity, and the success branch at
`capacity = 1000`, `prob = 1/2` on a cached single-server client. -/
theorem create_filter_contract_inst :
    (truthyRat (some (1 / 2 : Rat)) = true ∧
      truthyNat (none : Option Nat) = false ∧
      create_filter ⟨["a"], ["a"], none, 0⟩ (fun _ => []) 0 "f" none
          (some (1 / 2 : Rat)) none "Done"
        = (Except.error CErr.valueErr, ⟨["a"], ["a"], none, 0⟩, [])) ∧
    (get_connection ⟨["a"], ["a"], none, 0⟩ (fun _ => []) 0 "f" false none
        = (Except.ok "a", ⟨["a"], ["a"], none, 0⟩, []) ∧
      create_filter ⟨["a"], ["a"], none, 0⟩ (fun _ => []) 0 "f"
          (some 1000) (some (1 / 2 : Rat)) none "Done"
        = (Except.ok ("a", "f"), ⟨["a"], ["a"], none, 0⟩,
            [] ++ [CEvent.cmdTo "a" (Cmd.create "f"
                (if truthyNat (some 1000) then some 1000 else none)
                (if truthyRat (some (1 / 2 : Rat)) then some (1 / 2 : Rat)
                  else none)),
              CEvent.readLineFrom "a"])) := by
  have h := create_filter_contract ⟨["a"], ["a"], none, 0⟩ (fun _ => []) 0
    "f" none (some (1 / 2 : Rat)) none "Done" "a"
    ⟨["a"], ["a"], none, 0⟩ []
  have h2 := create_filter_contract ⟨["a"], ["a"], none, 0⟩ (fun _ => []) 0
    "f" (some 1000) (some (1 / 2 : Rat)) none "Done" "a"
    ⟨["a"], ["a"], none, 0⟩ []
  refine ⟨⟨by norm_num [truthyRat], rfl,
      h.1 (by norm_num [truthyRat]) rfl⟩, rfl, ?_⟩
  exact (h2.2 (fun _ => rfl) rfl).1 rfl

/-- C9: with Python truthiness, a zero probability (or zero capacity)
behaves as absent: `create_filter` with `prob = 0` and no capacity raises
no `ValueError` and proceeds to the network, and zero-valued capacity or
probability arguments are silently omitted from the `create` command sent
to the server (a truthy capacity is still included when the probability is
zero). -/
theorem create_zero_args_omitted (name : String) :
    (create_filter ⟨["a"], ["a"], none, 0⟩ (fun _ => []) 0 name none
        (some 0) none "Done").1 = Except.ok ("a", name) ∧
    (create_filter ⟨["a"], ["a"], none, 0⟩ (fun _ => []) 0 name none
        (some 0) none "Done").2.2
      = [CEvent.cmdTo "a" (Cmd.create name none none),
          CEvent.readLineFrom "a"] ∧
    (create_filter ⟨["a"], ["a"], none, 0⟩ (fun _ => []) 0 name (some 0)
        none none "Done").2.2
      = [CEvent.cmdTo "a" (Cmd.create name none none),
          CEvent.readLineFrom "a"] ∧
    (create_filter ⟨["a"], ["a"], none, 0⟩ (fun _ => []) 0 name (some 7)
        (some 0) none "Done").2.2
      = [CEvent.cmdTo "a" (Cmd.create name (some 7) none),
          CEvent.readLineFrom "a"] :=
  ⟨rfl, rfl, rfl, rfl⟩

end PyBloom
